import Mathlib

/-!
Verification of the traffic-simulation core of `Modelling_Proj.py`
(class `TrafficSimulator`): the intervention catalog `traffic_options`,
the per-minute stepping loop `simulate_traffic`, and the validation and
aggregation logic of `start_simulation`.  Reals of the Python source are
modelled as rationals; the per-minute weather draws of the global
`random.uniform(0.8, 1.2)` are modelled as an explicit stream of
rationals indexed by minute.
-/

/-- An entry of the `traffic_options` dictionary (lines 33-82): static
parameters of one intervention.  Field order follows the source dict. -/
structure TrafficOption where
  id : String
  efficiency : ℚ
  cost : ℚ
  description : String
  wait_time : ℚ
  maintenance_cost : ℚ
deriving DecidableEq

/-- `traffic_options["Traffic Lights"]` (lines 34-41). -/
def trafficLights : TrafficOption :=
  ⟨"traffic_lights", 8/10, 2500000,
   "Traditional traffic lights with timer system and backup power", 45, 100000⟩

/-- `traffic_options["Redesigned Lanes"]` (lines 42-49). -/
def redesignedLanes : TrafficOption :=
  ⟨"redesigned_lanes", 12/10, 7500000,
   "Optimized lane layout with dedicated turn lanes and improved signage", 30, 200000⟩

/-- `traffic_options["Roundabout"]` (lines 50-57). -/
def roundabout : TrafficOption :=
  ⟨"roundabout", 1, 10000000,
   "Modern roundabout with yield signs and proper lighting", 20, 300000⟩

/-- `traffic_options["U-Turn Slot System"]` (lines 58-65). -/
def uTurnSlot : TrafficOption :=
  ⟨"u_turn", 9/10, 5000000,
   "Strategic U-turn slots to reduce intersection crossing", 25, 150000⟩

/-- `traffic_options["Overpass Bridge"]` (lines 66-73). -/
def overpassBridge : TrafficOption :=
  ⟨"overpass", 16/10, 25000000,
   "Elevated road structure with pedestrian walkway", 10, 800000⟩

/-- `traffic_options["Road Widening"]` (lines 74-81). -/
def roadWidening : TrafficOption :=
  ⟨"widening", 13/10, 20000000,
   "Expanded road capacity with additional lanes and sidewalks", 15, 400000⟩

/-- The `traffic_options` dictionary in insertion order (lines 33-82). -/
def traffic_options : List (String × TrafficOption) :=
  [("Traffic Lights", trafficLights), ("Redesigned Lanes", redesignedLanes),
   ("Roundabout", roundabout), ("U-Turn Slot System", uTurnSlot),
   ("Overpass Bridge", overpassBridge), ("Road Widening", roadWidening)]

/-- Failure modes of the simulation core.  `invalidParameter` models the
dedicated rejection path of `start_simulation` (lines 455-457,
"Please enter positive numbers!").  `zeroDivisionError` models a Python
`ZeroDivisionError` raised by an unguarded division (line 313's
`vehicles_per_minute / passed_vehicles` when `passed_vehicles == 0`, and
line 473's `sum(wait_times) / len(wait_times)` when the list is empty),
which the generic handler at line 497 surfaces as a division fault.
`degenerateStep` and `emptySeries` are modelled from the spec: the spec's
error taxonomy names `DegenerateStepError` and `EmptySeriesError`, which
appear on no path of the source; they are included so that claims about
them can be stated. -/
inductive SimError where
  | invalidParameter
  | zeroDivisionError
  | degenerateStep
  | emptySeries
deriving DecidableEq

deriving instance DecidableEq for Except

/-- The efficiency used at a given minute (lines 303-306): the
intervention's base efficiency, multiplied by `0.7` when peak hour is
enabled and `15 <= minute % 60 <= 45`. -/
def currentEfficiency (base_efficiency : ℚ) (peak_hour : Bool) (minute : ℕ) : ℚ :=
  if peak_hour = true ∧ 15 ≤ minute % 60 ∧ minute % 60 ≤ 45 then
    base_efficiency * (7/10)
  else
    base_efficiency

/-- One emitted simulation step: the vehicles passed and the wait time of
one minute, as handed to `update_simulation_display` (line 319). -/
structure MinuteStep where
  passed : ℚ
  wait : ℚ
deriving DecidableEq

/-- The body of one loop iteration of `simulate_traffic` (lines 303-314):
`passed_vehicles = vehicles_per_minute * current_efficiency * weather_factor`
and `current_wait = wait_time * (vehicles_per_minute / passed_vehicles)`.
When `passed_vehicles` is `0`, the division at line 313 raises a Python
`ZeroDivisionError`; the source has no guard there. -/
def simulateStep (opt : TrafficOption) (peak_hour : Bool) (vehicles_per_minute weather_factor : ℚ)
    (minute : ℕ) : Except SimError MinuteStep :=
  if vehicles_per_minute * currentEfficiency opt.efficiency peak_hour minute * weather_factor = 0 then
    Except.error SimError.zeroDivisionError
  else
    Except.ok
      ⟨vehicles_per_minute * currentEfficiency opt.efficiency peak_hour minute * weather_factor,
       opt.wait_time *
         (vehicles_per_minute /
           (vehicles_per_minute * currentEfficiency opt.efficiency peak_hour minute * weather_factor))⟩

/-- The minute loop of `simulate_traffic` (lines 299-321): first argument is
the number of remaining minutes, second the current minute index; the
accumulators carry `total_vehicles` (accumulating `max(0, passed_vehicles)`,
line 316), `wait_times` (line 314), and the list of steps emitted to the
display (line 319).  Progress-bar updates, redrawing and `sleep` are
display-only and not modelled. -/
def simLoop (opt : TrafficOption) (peak_hour : Bool) (vehicles_per_minute : ℚ)
    (weather : ℕ → ℚ) :
    ℕ → ℕ → ℚ → List ℚ → List MinuteStep → Except SimError (ℚ × List ℚ × List MinuteStep)
  | 0, _, total, waits, steps => Except.ok (total, waits, steps)
  | n + 1, minute, total, waits, steps =>
    match simulateStep opt peak_hour vehicles_per_minute (weather minute) minute with
    | Except.error e => Except.error e
    | Except.ok s =>
        simLoop opt peak_hour vehicles_per_minute weather n (minute + 1)
          (total + max 0 s.passed) (waits ++ [s.wait]) (steps ++ [s])

/-- Python's `int()` truncation toward zero, applied to `total_vehicles`
at line 323. -/
def truncToZero (q : ℚ) : ℤ := if 0 ≤ q then q.floor else q.ceil

/-- `simulate_traffic(option, vehicles_per_minute, simulation_time)`
(lines 292-323), with the looked-up `solution_info` passed as the record
`opt` and the per-minute weather draws as the stream `weather`.  Returns
`(int(total_vehicles), wait_times)` together with the emitted step series. -/
def simulate_traffic (opt : TrafficOption) (peak_hour : Bool) (vehicles_per_minute : ℚ)
    (simulation_time : ℕ) (weather : ℕ → ℚ) :
    Except SimError (ℤ × List ℚ × List MinuteStep) :=
  match simLoop opt peak_hour vehicles_per_minute weather simulation_time 0 0 [] [] with
  | Except.error e => Except.error e
  | Except.ok (total, waits, steps) => Except.ok (truncToZero total, waits, steps)

/-- The aggregation at line 473: `avg_wait = sum(wait_times) / len(wait_times)`.
On an empty list Python raises `ZeroDivisionError` (`len` is `0`); there is
no emptiness guard in the source. -/
def averageWait (wait_times : List ℚ) : Except SimError ℚ :=
  if wait_times.length = 0 then Except.error SimError.zeroDivisionError
  else Except.ok (wait_times.sum / (wait_times.length : ℚ))

/-- The outcome of one run as assembled by `start_simulation`
(lines 470-488): the emitted series, `total` and `avg_wait`. -/
structure SimulationResult where
  series : List MinuteStep
  totalVehicles : ℤ
  averageWaitSeconds : ℚ
deriving DecidableEq

/-- `start_simulation` (lines 446-498), restricted to the computational
path: validate `vehicles <= 0 or sim_time <= 0` (lines 455-457, the
dedicated rejection before any stepping), run `simulate_traffic`
(line 470), aggregate `avg_wait` (line 473).  GUI wiring is not modelled. -/
def start_simulation (opt : TrafficOption) (vehicles sim_time : ℤ) (peak_hour : Bool)
    (weather : ℕ → ℚ) : Except SimError SimulationResult :=
  if vehicles ≤ 0 ∨ sim_time ≤ 0 then Except.error SimError.invalidParameter
  else
    match simulate_traffic opt peak_hour (vehicles : ℚ) sim_time.toNat weather with
    | Except.error e => Except.error e
    | Except.ok (total, waits, steps) =>
      match averageWait waits with
      | Except.error e => Except.error e
      | Except.ok avg => Except.ok ⟨steps, total, avg⟩

/-- The five-year total cost displayed at line 487:
`solution_info['cost'] + yearly_cost * 5`. -/
def fiveYearTotalCost (opt : TrafficOption) : ℚ :=
  opt.cost + opt.maintenance_cost * 5

/-- Modelled from the spec: `costProjection(spec, years) =
spec.implementationCost + spec.annualMaintenanceCost * years`.  The source
computes only the five-year instance of this formula (line 487,
`fiveYearTotalCost`); the general-years function exists only in the spec. -/
def costProjection (opt : TrafficOption) (years : ℚ) : ℚ :=
  opt.cost + opt.maintenance_cost * years

/-- Two consecutive `start_simulation` invocations sharing the hidden
process-global random generator: `simulate_traffic` draws its weather
factors from the global `random` module (line 309, `random.uniform(0.8, 1.2)`),
not from a parameter, so the second run consumes the global stream `g`
from the position where the first run left it (one draw per simulated
minute). -/
def runTwiceGlobal (opt : TrafficOption) (vehicles sim_time : ℤ) (peak_hour : Bool)
    (g : ℕ → ℚ) (pos : ℕ) : Except SimError (SimulationResult × SimulationResult) :=
  match start_simulation opt vehicles sim_time peak_hour (fun m => g (pos + m)) with
  | Except.error e => Except.error e
  | Except.ok r1 =>
    match start_simulation opt vehicles sim_time peak_hour
        (fun m => g (pos + sim_time.toNat + m)) with
    | Except.error e => Except.error e
    | Except.ok r2 => Except.ok (r1, r2)

/-- Inversion of one loop body: a successful step has the throughput and
wait-time values of lines 308-313. -/
theorem simulateStep_ok_iff (opt : TrafficOption) (peak_hour : Bool) (vpm w : ℚ) (m : ℕ)
    (s : MinuteStep) :
    simulateStep opt peak_hour vpm w m = Except.ok s ↔
      vpm * currentEfficiency opt.efficiency peak_hour m * w ≠ 0 ∧
      s = ⟨vpm * currentEfficiency opt.efficiency peak_hour m * w,
           opt.wait_time * (vpm / (vpm * currentEfficiency opt.efficiency peak_hour m * w))⟩ := by
  unfold simulateStep
  split
  · rename_i h
    simp [h]
  · rename_i h
    constructor
    · intro hok
      refine ⟨h, ?_⟩
      injection hok with h'
      exact h'.symm
    · rintro ⟨-, rfl⟩
      rfl

/-- The minute efficiency is positive whenever the base efficiency is. -/
theorem currentEfficiency_pos {e : ℚ} (he : 0 < e) (peak_hour : Bool) (m : ℕ) :
    0 < currentEfficiency e peak_hour m := by
  unfold currentEfficiency
  split
  · exact mul_pos he (by norm_num)
  · exact he

/-- The minute efficiency is strictly monotone in the base efficiency. -/
theorem currentEfficiency_lt {e1 e2 : ℚ} (h : e1 < e2) (peak_hour : Bool) (m : ℕ) :
    currentEfficiency e1 peak_hour m < currentEfficiency e2 peak_hour m := by
  unfold currentEfficiency
  split
  · exact mul_lt_mul_of_pos_right h (by norm_num)
  · exact h

/-- Loop invariant of `simLoop`: a successful run of `n` minutes appends
`n` steps, appends their wait times to `wait_times`, and adds the sum of
their clamped throughputs to `total_vehicles`. -/
theorem simLoop_ok_spec (opt : TrafficOption) (peak_hour : Bool) (vpm : ℚ) (weather : ℕ → ℚ) :
    ∀ (n minute : ℕ) (total : ℚ) (waits : List ℚ) (steps : List MinuteStep)
      (total' : ℚ) (waits' : List ℚ) (steps' : List MinuteStep),
      simLoop opt peak_hour vpm weather n minute total waits steps =
        Except.ok (total', waits', steps') →
      ∃ new : List MinuteStep,
        new.length = n ∧ steps' = steps ++ new ∧
        waits' = waits ++ new.map MinuteStep.wait ∧
        total' = total + (new.map (fun s => max 0 s.passed)).sum := by
  intro n
  induction n with
  | zero =>
    intro minute total waits steps total' waits' steps' h
    simp only [simLoop, Except.ok.injEq, Prod.mk.injEq] at h
    obtain ⟨rfl, rfl, rfl⟩ := h
    exact ⟨[], rfl, by simp, by simp, by simp⟩
  | succ k ih =>
    intro minute total waits steps total' waits' steps' h
    simp only [simLoop] at h
    cases hs : simulateStep opt peak_hour vpm (weather minute) minute with
    | error e => rw [hs] at h; simp at h
    | ok s =>
      rw [hs] at h
      obtain ⟨new, hlen, hsteps, hwaits, htotal⟩ := ih (minute + 1) _ _ _ _ _ _ h
      refine ⟨s :: new, by simp [hlen], ?_, ?_, ?_⟩
      · rw [hsteps]; simp
      · rw [hwaits]; simp
      · rw [htotal]; simp [add_assoc]

/-- `simLoop` reads the weather stream only at the minutes it executes. -/
theorem simLoop_congr (opt : TrafficOption) (peak_hour : Bool) (vpm : ℚ) (w1 w2 : ℕ → ℚ) :
    ∀ (n minute : ℕ), (∀ k, minute ≤ k → k < minute + n → w1 k = w2 k) →
      ∀ (total : ℚ) (waits : List ℚ) (steps : List MinuteStep),
      simLoop opt peak_hour vpm w1 n minute total waits steps =
      simLoop opt peak_hour vpm w2 n minute total waits steps := by
  intro n
  induction n with
  | zero => intro minute _ total waits steps; rfl
  | succ k ih =>
    intro minute hw total waits steps
    have h0 : w1 minute = w2 minute := hw minute le_rfl (by omega)
    simp only [simLoop, h0]
    cases simulateStep opt peak_hour vpm (w2 minute) minute with
    | error e => rfl
    | ok s => exact ih (minute + 1) (fun k hk1 hk2 => hw k (by omega) (by omega)) _ _ _

/-- C1: with peak hour off, every successful minute has throughput
`arrivalRatePerMinute * efficiency * weatherFactor` and wait time
`baseWaitSeconds * (arrivalRatePerMinute / throughput)`; and the
Scenario-A run (Roundabout: efficiency 1, base wait 20, arrival rate 60,
horizon 1 minute, peak off, weather factor 1) yields throughput 60,
wait 20 s, 60 total vehicles and average wait 20 s. -/
theorem C1_off_peak_formulas_and_scenarioA :
    (∀ (opt : TrafficOption) (vpm w : ℚ) (m : ℕ) (s : MinuteStep),
        simulateStep opt false vpm w m = Except.ok s →
        s.passed = vpm * opt.efficiency * w ∧
        s.wait = opt.wait_time * (vpm / (vpm * opt.efficiency * w))) ∧
    start_simulation roundabout 60 1 false (fun _ => 1) =
      Except.ok ⟨[⟨60, 20⟩], 60, 20⟩ := by
  constructor
  · intro opt vpm w m s hok
    have hce : currentEfficiency opt.efficiency false m = opt.efficiency := by
      unfold currentEfficiency
      simp
    rw [simulateStep_ok_iff, hce] at hok
    obtain ⟨-, rfl⟩ := hok
    exact ⟨rfl, rfl⟩
  · with_unfolding_all rfl

theorem C1_witness :
    (⟨60, 20⟩ : MinuteStep).passed = (60 : ℚ) * roundabout.efficiency * 1 ∧
    (⟨60, 20⟩ : MinuteStep).wait =
      roundabout.wait_time * (60 / ((60 : ℚ) * roundabout.efficiency * 1)) :=
  C1_off_peak_formulas_and_scenarioA.1 roundabout 60 1 0 ⟨60, 20⟩ (by with_unfolding_all rfl)

/-- C2: with peak hour on, the minute efficiency is the base efficiency
times `0.7` exactly on minutes with `15 <= m % 60 <= 45`, and with weather
factor 1 the throughput is `arrivalRate * efficiency * 0.7` on such
minutes and `arrivalRate * efficiency` on all others. -/
theorem C2_peak_hour_window (opt : TrafficOption) (vpm : ℚ) (m : ℕ) (s : MinuteStep)
    (h : simulateStep opt true vpm 1 m = Except.ok s) :
    currentEfficiency opt.efficiency true m =
      (if 15 ≤ m % 60 ∧ m % 60 ≤ 45 then opt.efficiency * (7/10) else opt.efficiency) ∧
    s.passed =
      (if 15 ≤ m % 60 ∧ m % 60 ≤ 45 then vpm * opt.efficiency * (7/10)
       else vpm * opt.efficiency) := by
  have hce : currentEfficiency opt.efficiency true m =
      (if 15 ≤ m % 60 ∧ m % 60 ≤ 45 then opt.efficiency * (7/10) else opt.efficiency) := by
    unfold currentEfficiency
    simp
  refine ⟨hce, ?_⟩
  rw [simulateStep_ok_iff] at h
  obtain ⟨-, rfl⟩ := h
  show vpm * currentEfficiency opt.efficiency true m * 1 = _
  rw [hce]
  by_cases hm : 15 ≤ m % 60 ∧ m % 60 ≤ 45
  · rw [if_pos hm, if_pos hm]
    ring
  · rw [if_neg hm, if_neg hm]
    ring

theorem C2_witness :
    currentEfficiency roundabout.efficiency true 20 =
      (if 15 ≤ 20 % 60 ∧ 20 % 60 ≤ 45 then roundabout.efficiency * (7/10)
       else roundabout.efficiency) ∧
    (⟨42, 200/7⟩ : MinuteStep).passed =
      (if 15 ≤ 20 % 60 ∧ 20 % 60 ≤ 45 then (60 : ℚ) * roundabout.efficiency * (7/10)
       else (60 : ℚ) * roundabout.efficiency) :=
  C2_peak_hour_window roundabout 60 20 ⟨42, 200/7⟩ (by with_unfolding_all rfl)

/-- C3: at a minute whose computed `passed_vehicles` is exactly `0`
(weather factor 0 here), `simulate_traffic` does not fail the step with
the spec's `DegenerateStepError`: line 313 divides without a guard and the
run propagates a `ZeroDivisionError` division fault. -/
theorem C3_zero_throughput_propagates_division_fault :
    simulate_traffic roundabout false 60 1 (fun _ => 0) =
      Except.error SimError.zeroDivisionError ∧
    simulate_traffic roundabout false 60 1 (fun _ => 0) ≠
      Except.error SimError.degenerateStep := by
  constructor
  · with_unfolding_all rfl
  · with_unfolding_all decide

/-- C5 counterexample: aggregating the empty series does not fail with the
spec's `EmptySeriesError`; line 473 divides `sum` by `len` and raises a
`ZeroDivisionError`. -/
theorem C5_counterexample :
    averageWait [] = Except.error SimError.zeroDivisionError ∧
    averageWait [] ≠ Except.error SimError.emptySeries := by
  constructor
  · rfl
  · decide

/-- C5 (amended): invoking the aggregation of line 473 on an empty series
fails with a division-by-zero fault. -/
theorem C5_empty_aggregation_division_fault :
    averageWait [] = Except.error SimError.zeroDivisionError := rfl

/-- C6: a non-positive arrival rate or horizon is rejected before any
stepping occurs (lines 455-457), producing no steps and no partial series. -/
theorem C6_invalid_parameters_fail_fast (opt : TrafficOption) (v t : ℤ) (peak_hour : Bool)
    (w : ℕ → ℚ) (h : v ≤ 0 ∨ t ≤ 0) :
    start_simulation opt v t peak_hour w = Except.error SimError.invalidParameter := by
  unfold start_simulation
  rw [if_pos h]

theorem C6_witness :
    start_simulation roundabout 0 5 false (fun _ => 1) =
      Except.error SimError.invalidParameter :=
  C6_invalid_parameters_fail_fast roundabout 0 5 false (fun _ => 1) (Or.inl le_rfl)

/-- C7: `costProjection(spec, years) = implementationCost +
annualMaintenanceCost * years` with no failure mode, its five-year
instance agrees with the `5-year total cost` of line 487, and for the
Roundabout spec (cost 10000000, maintenance 300000) the value at 5 years
is 11500000. -/
theorem C7_cost_projection :
    (∀ (opt : TrafficOption) (years : ℚ),
        costProjection opt years = opt.cost + opt.maintenance_cost * years) ∧
    (∀ opt : TrafficOption, fiveYearTotalCost opt = costProjection opt 5) ∧
    costProjection roundabout 5 = 11500000 ∧
    fiveYearTotalCost roundabout = 11500000 := by
  refine ⟨fun _ _ => rfl, fun _ => rfl, ?_, ?_⟩
  · with_unfolding_all rfl
  · with_unfolding_all rfl

/-- Inversion of a successful `start_simulation`: the horizon is positive
and the result is assembled from the emitted series exactly as lines
316, 323 and 473 compute it. -/
theorem start_simulation_ok_inv (opt : TrafficOption) (v t : ℤ) (peak_hour : Bool)
    (w : ℕ → ℚ) (r : SimulationResult)
    (h : start_simulation opt v t peak_hour w = Except.ok r) :
    ∃ new : List MinuteStep, new.length = t.toNat ∧ t.toNat ≠ 0 ∧
      r = ⟨new, truncToZero ((new.map (fun s => max 0 s.passed)).sum),
           (new.map MinuteStep.wait).sum / ((new.map MinuteStep.wait).length : ℚ)⟩ := by
  unfold start_simulation at h
  split at h
  · simp at h
  · rename_i hvt
    have ht : t.toNat ≠ 0 := by
      rw [not_or] at hvt
      omega
    cases hloop : simLoop opt peak_hour (v : ℚ) w t.toNat 0 0 [] [] with
    | error e =>
      have hst : simulate_traffic opt peak_hour (v : ℚ) t.toNat w = Except.error e := by
        unfold simulate_traffic
        rw [hloop]
      rw [hst] at h
      simp at h
    | ok res =>
      obtain ⟨total, waits, steps⟩ := res
      obtain ⟨new, hlen, hsteps, hwaits, htotal⟩ :=
        simLoop_ok_spec opt peak_hour (v : ℚ) w t.toNat 0 0 [] [] total waits steps hloop
      simp only [List.nil_append] at hsteps hwaits
      rw [zero_add] at htotal
      have hlw : ¬ waits.length = 0 := by
        rw [hwaits]
        simp [hlen, ht]
      have hst : simulate_traffic opt peak_hour (v : ℚ) t.toNat w =
          Except.ok (truncToZero total, waits, steps) := by
        unfold simulate_traffic
        rw [hloop]
      have hav : averageWait waits =
          Except.ok (waits.sum / (waits.length : ℚ)) := by
        unfold averageWait
        rw [if_neg hlw]
      rw [hst] at h
      dsimp only at h
      rw [hav] at h
      dsimp only at h
      injection h with h
      refine ⟨new, hlen, ht, ?_⟩
      rw [← h, hsteps, hwaits, htotal]

/-- C4: for every successful run (hence a non-empty series, including a
single-minute one), `totalVehicles` is the sum of the per-minute
throughputs, each clamped below at 0 (line 316), truncated toward zero to
an integer (line 323), and `averageWaitSeconds` is the arithmetic mean of
the series' wait times (line 473). -/
theorem C4_aggregation_totals_and_mean (opt : TrafficOption) (v t : ℤ) (peak_hour : Bool)
    (w : ℕ → ℚ) (r : SimulationResult)
    (h : start_simulation opt v t peak_hour w = Except.ok r) :
    r.series ≠ [] ∧
    r.totalVehicles = truncToZero ((r.series.map (fun s => max 0 s.passed)).sum) ∧
    r.averageWaitSeconds =
      (r.series.map MinuteStep.wait).sum / ((r.series.map MinuteStep.wait).length : ℚ) := by
  obtain ⟨new, hlen, ht, rfl⟩ := start_simulation_ok_inv opt v t peak_hour w r h
  refine ⟨?_, rfl, rfl⟩
  intro hnil
  have hne : new = [] := hnil
  rw [hne] at hlen
  exact ht hlen.symm

theorem C4_witness :
    (⟨[⟨60, 20⟩], 60, 20⟩ : SimulationResult).series ≠ [] ∧
    (⟨[⟨60, 20⟩], 60, 20⟩ : SimulationResult).totalVehicles =
      truncToZero (((⟨[⟨60, 20⟩], 60, 20⟩ : SimulationResult).series.map
        (fun s => max 0 s.passed)).sum) ∧
    (⟨[⟨60, 20⟩], 60, 20⟩ : SimulationResult).averageWaitSeconds =
      ((⟨[⟨60, 20⟩], 60, 20⟩ : SimulationResult).series.map MinuteStep.wait).sum /
        ((((⟨[⟨60, 20⟩], 60, 20⟩ : SimulationResult).series.map MinuteStep.wait).length : ℕ) : ℚ) :=
  C4_aggregation_totals_and_mean roundabout 60 1 false (fun _ => 1) ⟨[⟨60, 20⟩], 60, 20⟩
    (by with_unfolding_all rfl)

/-- C8 counterexample: the weather source is the hidden process-global
generator, not a parameter of the run, so two consecutive invocations with
identical inputs (Roundabout, arrival rate 60, horizon 1, peak off)
consume successive segments of the global stream and produce different
results: with the global stream `1, 9/10, 9/10, ...` the first run yields
average wait 20 and the second 200/9. -/
theorem C8_counterexample :
    runTwiceGlobal roundabout 60 1 false (fun n => if n = 0 then 1 else 9/10) 0 =
      Except.ok (⟨[⟨60, 20⟩], 60, 20⟩, ⟨[⟨54, 200/9⟩], 54, 200/9⟩) ∧
    (⟨[⟨60, 20⟩], 60, 20⟩ : SimulationResult) ≠ ⟨[⟨54, 200/9⟩], 54, 200/9⟩ := by
  constructor
  · with_unfolding_all rfl
  · with_unfolding_all decide

/-- C8 (amended): the run is deterministic in the consumed weather
sequence: two `start_simulation` calls with identical inputs whose weather
streams agree on the first `horizonMinutes` draws produce identical
results. -/
theorem C8_deterministic_given_weather_sequence (opt : TrafficOption) (v t : ℤ)
    (peak_hour : Bool) (w1 w2 : ℕ → ℚ) (h : ∀ m : ℕ, m < t.toNat → w1 m = w2 m) :
    start_simulation opt v t peak_hour w1 = start_simulation opt v t peak_hour w2 := by
  have hsim : simulate_traffic opt peak_hour (v : ℚ) t.toNat w1 =
      simulate_traffic opt peak_hour (v : ℚ) t.toNat w2 := by
    unfold simulate_traffic
    rw [simLoop_congr opt peak_hour (v : ℚ) w1 w2 t.toNat 0
      (fun k _ hk => h k (by omega)) 0 [] []]
  unfold start_simulation
  rw [hsim]

theorem C8_witness :
    start_simulation roundabout 60 1 false (fun _ => 1) =
      start_simulation roundabout 60 1 false (fun n => if n = 0 then 1 else 2) :=
  C8_deterministic_given_weather_sequence roundabout 60 1 false
    (fun _ => 1) (fun n => if n = 0 then 1 else 2)
    (fun m hm => by
      have hm1 : m < 1 := hm
      have hm0 : m = 0 := by omega
      rw [hm0]
      rfl)

/-- C9: holding arrival rate, base wait time, peak-hour state, minute and
weather factor fixed, a strictly larger (positive) efficiency gives a
strictly smaller wait time for that minute. -/
theorem C9_wait_strictly_antitone_in_efficiency (ids dsc : String) (cst bw mc e1 e2 : ℚ)
    (peak_hour : Bool) (vpm wf : ℚ) (m : ℕ)
    (hv : 0 < vpm) (hw : 0 < wf) (hb : 0 < bw) (he1 : 0 < e1) (he : e1 < e2)
    (s1 s2 : MinuteStep)
    (h1 : simulateStep ⟨ids, e1, cst, dsc, bw, mc⟩ peak_hour vpm wf m = Except.ok s1)
    (h2 : simulateStep ⟨ids, e2, cst, dsc, bw, mc⟩ peak_hour vpm wf m = Except.ok s2) :
    s2.wait < s1.wait := by
  rw [simulateStep_ok_iff] at h1 h2
  obtain ⟨-, rfl⟩ := h1
  obtain ⟨-, rfl⟩ := h2
  have hc1 : 0 < currentEfficiency e1 peak_hour m := currentEfficiency_pos he1 peak_hour m
  have hc2 : 0 < currentEfficiency e2 peak_hour m :=
    currentEfficiency_pos (he1.trans he) peak_hour m
  have hcc : currentEfficiency e1 peak_hour m < currentEfficiency e2 peak_hour m :=
    currentEfficiency_lt he peak_hour m
  show bw * (vpm / (vpm * currentEfficiency e2 peak_hour m * wf)) <
    bw * (vpm / (vpm * currentEfficiency e1 peak_hour m * wf))
  rw [← mul_div_assoc, ← mul_div_assoc]
  refine div_lt_div_of_pos_left (mul_pos hb hv) ?_ ?_
  · exact mul_pos (mul_pos hv hc1) hw
  · exact mul_lt_mul_of_pos_right (mul_lt_mul_of_pos_left hcc hv) hw

theorem C9_witness : (⟨120, 10⟩ : MinuteStep).wait < (⟨60, 20⟩ : MinuteStep).wait :=
  C9_wait_strictly_antitone_in_efficiency "x" "d" 0 20 0 1 2 false 60 1 0
    (by decide) (by decide) (by decide) (by decide) (by decide)
    ⟨60, 20⟩ ⟨120, 10⟩ (by with_unfolding_all rfl) (by with_unfolding_all rfl)

/-- C10: for every successful minute with a positive arrival rate, the
wait time equals `baseWaitSeconds / (currentEfficiency * weatherFactor)`:
the arrival rate cancels, so the wait time does not depend on it. -/
theorem C10_wait_time_rate_cancels (opt : TrafficOption) (peak_hour : Bool) (wf : ℚ) (m : ℕ) :
    (∀ (vpm : ℚ) (s : MinuteStep), 0 < vpm →
        simulateStep opt peak_hour vpm wf m = Except.ok s →
        s.wait = opt.wait_time / (currentEfficiency opt.efficiency peak_hour m * wf)) ∧
    (∀ (vpm1 vpm2 : ℚ) (s1 s2 : MinuteStep), 0 < vpm1 → 0 < vpm2 →
        simulateStep opt peak_hour vpm1 wf m = Except.ok s1 →
        simulateStep opt peak_hour vpm2 wf m = Except.ok s2 →
        s1.wait = s2.wait) := by
  have key : ∀ (vpm : ℚ) (s : MinuteStep), 0 < vpm →
      simulateStep opt peak_hour vpm wf m = Except.ok s →
      s.wait = opt.wait_time / (currentEfficiency opt.efficiency peak_hour m * wf) := by
    intro vpm s hv h
    rw [simulateStep_ok_iff] at h
    obtain ⟨-, rfl⟩ := h
    show opt.wait_time *
      (vpm / (vpm * currentEfficiency opt.efficiency peak_hour m * wf)) = _
    rw [mul_assoc vpm, div_mul_cancel_left₀ (ne_of_gt hv), div_eq_mul_inv]
  refine ⟨key, fun vpm1 vpm2 s1 s2 hv1 hv2 h1 h2 => ?_⟩
  rw [key vpm1 s1 hv1 h1, key vpm2 s2 hv2 h2]

theorem C10_witness :
    (⟨60, 20⟩ : MinuteStep).wait =
      roundabout.wait_time / (currentEfficiency roundabout.efficiency false 0 * 1) :=
  (C10_wait_time_rate_cancels roundabout false 1 0).1 60 ⟨60, 20⟩ (by decide)
    (by with_unfolding_all rfl)
